import Mathlib

/-!
# Verification of purpleair2mqtt

A shallow embedding, in Lean 4, of the core of the `purpleair2mqtt`
repository (files `mqtt_event_receiver.py`, `purpleair_receiver.py`,
`app_configuration.py`), together with proofs and refutations of the
frozen claims about its specification.

Modelling conventions:
* Python strings become `String`, Python ints become `Int`, byte strings
  become `List Nat`.
* Python `dict` values (JSON objects, discovery templates) become
  association lists `PyDict := List (String × PyVal)`; `dict.get` and item
  assignment are embedded by `pyDictGet` / `pyDictSet` (assignment updates
  an existing key in place, otherwise appends, matching CPython's
  insertion-order semantics).
* Mutable heap-allocated dicts (the discovery templates, which the source
  mutates through `.copy()`d references) live in an explicit `Store`; an
  address is an index into the store.  `dict.copy()` is `Store.alloc` of
  the read value, item assignment is `Store.write`.
* Exceptions are explicit: fallible operations return a result paired
  with an `Option PyError`; an uncaught exception aborts the remainder of
  the embedded control flow exactly where the Python exception would
  propagate.
* External collaborators (`httpx.get`, `json.loads`/`response.json()`,
  UTF-8 decoding) are oracles passed in as parameters: `json.loads` is an
  oracle `String → Option PyDict` (`none` models `json.JSONDecodeError`),
  `httpx.get` is an oracle `String → FetchResult`.
-/

set_option autoImplicit false

namespace PurpleAir2Mqtt

/-- A Python/JSON value, as far as the claims need it: strings, booleans,
lists, nested dicts, and `None`. -/
inductive PyVal where
  | s (v : String)
  | b (v : Bool)
  | l (items : List PyVal)
  | d (fields : List (String × PyVal))
  | pynone
deriving Repr

/-- A Python `dict` with `String` keys, in insertion order. -/
def PyDict : Type := List (String × PyVal)

instance : Repr PyDict := inferInstanceAs (Repr (List (String × PyVal)))

/-- Embeds Python `d.get(k)`: the value at the first matching key, or
`none` (Python `None`) when the key is absent. -/
def pyDictGet : PyDict → String → Option PyVal
  | [], _ => none
  | (k₀, v₀) :: rest, k => if k₀ = k then some v₀ else pyDictGet rest k

/-- Embeds Python `d[k] = v`: replaces the value of an existing key in
place (keeping its position), otherwise appends the new binding at the
end, as CPython dicts do. -/
def pyDictSet (d : PyDict) (k : String) (v : PyVal) : PyDict :=
  match d with
  | [] => [(k, v)]
  | (k₀, v₀) :: rest =>
      if k₀ = k then (k₀, v) :: rest else (k₀, v₀) :: pyDictSet rest k v

/-- A heap of mutable Python dicts; an address is an index. -/
structure Store where
  cells : List PyDict
deriving Repr

/-- Reads the dict at address `a` (unallocated addresses read as `[]`;
the embedding never dereferences one). -/
def Store.read (st : Store) (a : Nat) : PyDict :=
  (st.cells.get? a).getD []

/-- Allocates a fresh dict initialized to `d` (embeds `dict.copy()` when
`d` is the value read from the copied dict), returning its address. -/
def Store.alloc (st : Store) (d : PyDict) : Nat × Store :=
  (st.cells.length, ⟨st.cells ++ [d]⟩)

/-- Overwrites the dict at address `a` (embeds item assignment on the
object at `a`). -/
def Store.write (st : Store) (a : Nat) (d : PyDict) : Store :=
  ⟨st.cells.set a d⟩

/-- Exceptions that the embedded code can raise. -/
inductive PyError where
  | jsonDecodeError
  | attributeError
  | unicodeDecodeError
deriving DecidableEq, Repr

/-- A payload handed to `client.publish`: either plain text or the
`json.dumps` of a dict (serialization is kept symbolic). -/
inductive MqttPayload where
  | text (v : String)
  | jsonDump (d : PyDict)
deriving Repr

/-- One call to `client.publish(topic, value, retain=retain)`. -/
structure PublishEvent where
  topic : String
  payload : MqttPayload
  retain : Bool
deriving Repr

/-! ## `mqtt_event_receiver.py`: the orchestrator's main loop

`MqttConnectionClient.connect_and_loop` runs, per iteration:
```
sleep_until = 1
if self.processor:
    sleep_until = self.processor.process_mqtt_loop(self) or sleep_until
time.sleep(sleep_until)
```
Python `or` takes the left operand unless it is falsy (`0` or `None` for
an `int`-or-`None` left operand). -/

/-- Embeds Python `x or y` for `x : int | None`: `None` and `0` are
falsy, every other integer (negative ones included) is truthy. -/
def pyOrInt (x : Option Int) (y : Int) : Int :=
  match x with
  | none => y
  | some v => if v = 0 then y else v

/-- The value passed to `time.sleep` in one iteration of the
`connect_and_loop` while-loop, given whether `self.processor` is set and
what `process_mqtt_loop` returned (`none` models Python `None`). -/
def loop_sleep_until (hasProcessor : Bool) (loopRet : Option Int) : Int :=
  if hasProcessor then pyOrInt loopRet 1 else 1

/-- The externally observable actions of `connect_and_loop` after the
connection is up. -/
inductive OrchestratorEvent where
  | publish (topic : String) (payload : String) (retain : Bool)
  | sleep (seconds : Int)
  | loop_stop
  | disconnect
  | clean_up
deriving DecidableEq, Repr

/-- Holds `true` on the `sleep` events of the main while-loop. -/
def OrchestratorEvent.isSleep : OrchestratorEvent → Bool
  | .sleep _ => true
  | _ => false

/-- Holds `true` exactly on `clean_up`. -/
def OrchestratorEvent.isCleanUp : OrchestratorEvent → Bool
  | .clean_up => true
  | _ => false

/-- The trace of `connect_and_loop` (with a processor installed, as
`main.py` always does) for a run whose while-loop executes one iteration
per entry of `ticks` — the entry being that iteration's
`process_mqtt_loop` return — and is then interrupted by
`KeyboardInterrupt`.  After the `except KeyboardInterrupt: pass` the
source runs, in order:
```
client.publish(self.status_topic, self.OFFLINE_STATUS, retain=True)
client.loop_stop()
client.disconnect()
self.processor.clean_up(self)
``` -/
def connect_and_loop_events (status_topic : String) (ticks : List (Option Int)) :
    List OrchestratorEvent :=
  ticks.map (fun r => OrchestratorEvent.sleep (loop_sleep_until true r)) ++
    [OrchestratorEvent.publish status_topic "offline" true,
     OrchestratorEvent.loop_stop,
     OrchestratorEvent.disconnect,
     OrchestratorEvent.clean_up]

/-! ## `purpleair_receiver.py`: `strip_seperators` -/

/-- Embeds Python `s.replace(c, "")` for a single-character needle `c`:
every occurrence of `c` is removed, all other characters stay in order. -/
def pyReplaceRemove : List Char → Char → List Char
  | [], _ => []
  | x :: xs, c => if x = c then pyReplaceRemove xs c else x :: pyReplaceRemove xs c

/-- Embeds `PurpleAirReceiver.strip_seperators`:
`value.replace(" ", "").replace(",", "").replace(":", "").replace("-", "")`. -/
def strip_seperators (value : String) : String :=
  ⟨pyReplaceRemove (pyReplaceRemove (pyReplaceRemove
      (pyReplaceRemove value.data ' ') ',') ':') '-'⟩

/-! ## `app_configuration.py`: the MQTT configuration -/

/-- The `MqttConfiguration` record as built by its `__init__` and possibly rewritten
by `AppConfig.load_mqtt_config`.  `status_topic` and `sensor_topic_root`
are `Option String` because `load_mqtt_config` can assign Python `None`
to them. -/
structure MqttConfiguration where
  host : String
  port : Int
  username : Option String
  password : Option String
  listen_topic : String
  status_topic : Option String
  sensor_topic_root : Option String
deriving DecidableEq, Repr

/-- The field defaults set by `MqttConfiguration.__init__`. -/
def MqttConfiguration.init : MqttConfiguration where
  host := "localhost"
  port := 1883
  username := none
  password := none
  listen_topic := "#"
  status_topic := some "alerts/purpleair2mqtt"
  sensor_topic_root := some "sensors/purpleair2mqtt"

/-- The `mqtt:` section of the YAML file, as the `dict.get` calls of
`load_mqtt_config` see it (each key present or absent; string-typed keys
may hold the empty string, which is falsy). -/
structure MqttYaml where
  host : Option String
  port : Option Int
  listen_topic : Option String
  status_topic : Option String
  sensor_topic_root : Option String
  username : Option String
  password : Option String
deriving DecidableEq, Repr

/-- Embeds Python `x or y` for `x : str | None`: `None` and `""` are
falsy. -/
def pyOrStr (x : Option String) (y : String) : String :=
  match x with
  | none => y
  | some v => if v = "" then y else v

/-- Embeds Python `x or None` for `x : str | None`: the result is `None`
exactly when `x` is `None` or the empty string. -/
def pyOrNoneStr (x : Option String) : Option String :=
  match x with
  | none => none
  | some v => if v = "" then none else some v

/-- Embeds `AppConfig.load_mqtt_config`: when `data.get('mqtt')` is
`None` the configuration is left untouched; otherwise every field is
reassigned, with `or`-fallbacks on `host`, `port`, `listen_topic` and
`or None` on `status_topic` and `sensor_topic_root`. -/
def load_mqtt_config (cfg : MqttConfiguration) (mqttSection : Option MqttYaml) :
    MqttConfiguration :=
  match mqttSection with
  | none => cfg
  | some m =>
      { host := pyOrStr m.host "localhost"
        port := pyOrInt m.port 1883
        listen_topic := pyOrStr m.listen_topic "#"
        status_topic := pyOrNoneStr m.status_topic
        sensor_topic_root := pyOrNoneStr m.sensor_topic_root
        username := m.username
        password := m.password }

/-- An `mqtt:` YAML section that is present but sets none of the keys. -/
def emptyMqttYaml : MqttYaml where
  host := none
  port := none
  listen_topic := none
  status_topic := none
  sensor_topic_root := none
  username := none
  password := none

/-! ## `purpleair_receiver.py`: polling

`httpx.get` is modelled as an oracle from URL to outcome.  A successful
response carries its status code, its body text, and the result of
JSON-parsing that body (`none` when `json.loads(text)` — equivalently
`response.json()` — would raise `JSONDecodeError`). -/

/-- The outcome of `httpx.get(url)`. -/
inductive FetchResult where
  | transportError
  | response (status : Nat) (text : String) (parsed : Option PyDict)

/-- Holds `true` when `retrieve_latest_data` / `publish_discovery_for_devices`
skip this fetch outcome with `continue` (transport error or non-200). -/
def FetchResult.skipped : FetchResult → Bool
  | .transportError => true
  | .response status _ _ => status ≠ 200

/-- The configuration and oracles a `PurpleAirReceiver` runs against:
`fetch` embeds `httpx.get`; `urls` and `refresh_interval_seconds` come
from `PurpleAirConfiguration`; `discovery_enabled` and `discovery_topic`
from `HomeAssistantConfiguration`; `status_topic` and
`sensor_topic_root` from the connected `MqttConnectionClient`'s
`MqttConfiguration` (assumed present, as the source dereferences them). -/
structure PAEnv where
  fetch : String → FetchResult
  urls : List String
  refresh_interval_seconds : Int
  discovery_enabled : Bool
  discovery_topic : String
  status_topic : String
  sensor_topic_root : String

/-- Embeds `MqttConnectionClient.format_sensor_topic`:
`f"{self.config.sensor_topic_root}/{topic}"`. -/
def format_sensor_topic (sensor_topic_root topic : String) : String :=
  sensor_topic_root ++ "/" ++ topic

/-- Embeds `PurpleAirReceiver.process_json_data`.  `json.loads(data)`
failing raises `JSONDecodeError`; `sensor.get('SensorId')` yielding
`None` (key absent) or a non-string value makes
`strip_seperators`'s `.replace` raise `AttributeError`; otherwise
`mqtt_client.publish_sensor_value(sensor_id, data)` publishes the raw
body, retained, under the sensor-topic root. -/
def process_json_data (env : PAEnv) (text : String) (parsed : Option PyDict) :
    Except PyError PublishEvent :=
  match parsed with
  | none => .error .jsonDecodeError
  | some sensor =>
      match pyDictGet sensor "SensorId" with
      | some (.s sid) =>
          .ok { topic := format_sensor_topic env.sensor_topic_root (strip_seperators sid)
                payload := .text text
                retain := true }
      | _ => .error .attributeError

/-- Embeds `PurpleAirReceiver.retrieve_latest_data` on a given URL list:
transport errors and non-200 statuses are logged and `continue`d;
a `process_json_data` exception propagates, aborting the loop (the
publishes already made stay made, later URLs are not fetched).  Returns
the publishes performed and the propagating exception, if any. -/
def retrieve_latest_data (env : PAEnv) : List String → List PublishEvent × Option PyError
  | [] => ([], none)
  | url :: rest =>
      match env.fetch url with
      | .transportError => retrieve_latest_data env rest
      | .response status text parsed =>
          if status = 200 then
            match process_json_data env text parsed with
            | .error e => ([], some e)
            | .ok ev =>
                let r := retrieve_latest_data env rest
                (ev :: r.1, r.2)
          else retrieve_latest_data env rest

/-! ## `mqtt_event_receiver.py`: `on_message` -/

/-- The data argument that `on_message` passes to
`processor.process_mqtt_event`: a decoded JSON object, or the raw
payload bytes. -/
inductive MsgData where
  | json (d : PyDict)
  | raw (payload : List Nat)

/-- What one `on_message` callback invocation does. -/
inductive OnMessageOutcome where
  | dispatched (topic : String) (data : MsgData)
  | dropped_warned
  | raised (e : PyError)
  | ignored

/-- Embeds `MqttConnectionClient.on_message`.  `decodeUtf8` is the
oracle for `bytes.decode('utf-8')` (`none` = `UnicodeDecodeError`, which
the `except json.JSONDecodeError` clause does not catch, so it
propagates); `jsonLoads` is the oracle for `json.loads` (`none` =
`JSONDecodeError`, caught: log a warning and drop).  With no JSON
decoding requested the raw payload bytes are dispatched; with no
processor installed nothing is dispatched. -/
def on_message (hasProcessor : Bool) (wants_json : String → Bool)
    (decodeUtf8 : List Nat → Option String) (jsonLoads : String → Option PyDict)
    (topic : String) (payload : List Nat) : OnMessageOutcome :=
  if hasProcessor && wants_json topic then
    match decodeUtf8 payload with
    | none => .raised .unicodeDecodeError
    | some message =>
        match jsonLoads message with
        | none => .dropped_warned
        | some data => .dispatched topic (.json data)
  else
    if hasProcessor then .dispatched topic (.raw payload) else .ignored

/-- The network thread delivers inbound messages one at a time;
`on_message` is invoked afresh on each, with no state carried between
invocations. -/
def process_messages (hasProcessor : Bool) (wants_json : String → Bool)
    (decodeUtf8 : List Nat → Option String) (jsonLoads : String → Option PyDict)
    (msgs : List (String × List Nat)) : List OnMessageOutcome :=
  msgs.map (fun m => on_message hasProcessor wants_json decodeUtf8 jsonLoads m.1 m.2)

/-! ## `purpleair_receiver.py`: the static descriptor table and discovery -/

/-- The class attribute `PurpleAirReceiver.purple_air_sensors`, the
static lookup table from metric key to Home-Assistant descriptor
template, transcribed entry for entry (entries in source order; the
commented-out `"SensorId"` entry of the source is absent from the
Python dict and hence absent here). -/
def purple_air_sensors : List (String × PyDict) := [
  ("Adc",
    [("enabled_by_default", PyVal.b true), ("state_class", PyVal.s "measurement"), ("unit_of_measurement", PyVal.s "AQI"), ("value_template", PyVal.s "\x7b\x7b value_json.Adc \x7d\x7d"), ("name", PyVal.s "Air Quality Index"), ("icon", PyVal.s "")]),
  ("current_temp_f",
    [("device_class", PyVal.s "temperature"), ("enabled_by_default", PyVal.b true), ("state_class", PyVal.s "measurement"), ("unit_of_measurement", PyVal.s "°F"), ("value_template", PyVal.s "\x7b\x7b value_json.current_temp_f \x7d\x7d"), ("name", PyVal.s "Current Temperature")]),
  ("current_humidity",
    [("device_class", PyVal.s "humidity"), ("enabled_by_default", PyVal.b true), ("state_class", PyVal.s "measurement"), ("unit_of_measurement", PyVal.s "%"), ("value_template", PyVal.s "\x7b\x7b value_json.current_humidity \x7d\x7d"), ("name", PyVal.s "Current Humidity")]),
  ("current_dewpoint_f",
    [("device_class", PyVal.s "temperature"), ("enabled_by_default", PyVal.b true), ("state_class", PyVal.s "measurement"), ("unit_of_measurement", PyVal.s "°F"), ("value_template", PyVal.s "\x7b\x7b value_json.current_dewpoint_f \x7d\x7d"), ("name", PyVal.s "Current Dewpoint")]),
  ("pressure",
    [("device_class", PyVal.s "pressure"), ("enabled_by_default", PyVal.b true), ("state_class", PyVal.s "measurement"), ("unit_of_measurement", PyVal.s "mbar"), ("value_template", PyVal.s "\x7b\x7b value_json.pressure \x7d\x7d"), ("name", PyVal.s "Air Pressure")]),
  ("p25aqic_b",
    [("enabled_by_default", PyVal.b false), ("state_class", PyVal.s "measurement"), ("value_template", PyVal.s "\x7b\x7b value_json.p25aqic_b \x7d\x7d"), ("name", PyVal.s "PM2.5 AQI Color B")]),
  ("pm2.5_aqi_b",
    [("enabled_by_default", PyVal.b true), ("state_class", PyVal.s "measurement"), ("value_template", PyVal.s "\x7b\x7b value_json.pm2.5_aqi_b \x7d\x7d"), ("name", PyVal.s "PM2.5 AQI B")]),
  ("pm1_0_cf_1_b",
    [("enabled_by_default", PyVal.b true), ("state_class", PyVal.s "measurement"), ("unit_of_measurement", PyVal.s "ug/m3"), ("value_template", PyVal.s "\x7b\x7b value_json.pm1_0_cf_1_b \x7d\x7d"), ("name", PyVal.s "1.0um CF=1 Mass B")]),
  ("pm2_5_cf_1_b",
    [("enabled_by_default", PyVal.b true), ("state_class", PyVal.s "measurement"), ("unit_of_measurement", PyVal.s "ug/m3"), ("value_template", PyVal.s "\x7b\x7b value_json.pm2_5_cf_1_b \x7d\x7d"), ("name", PyVal.s "2.5um CF=1 Mass B")]),
  ("pm10_0_cf_1_b",
    [("enabled_by_default", PyVal.b true), ("state_class", PyVal.s "measurement"), ("unit_of_measurement", PyVal.s "ug/m3"), ("value_template", PyVal.s "\x7b\x7b value_json.pm10_0_cf_1_b \x7d\x7d"), ("name", PyVal.s "10.0um CF=1 Mass B")]),
  ("pm1_0_atm_b",
    [("enabled_by_default", PyVal.b true), ("state_class", PyVal.s "measurement"), ("unit_of_measurement", PyVal.s "ug/m3"), ("value_template", PyVal.s "\x7b\x7b value_json.pm1_0_atm_b \x7d\x7d"), ("name", PyVal.s "1.0um ATM Mass B")]),
  ("pm2_5_atm_b",
    [("enabled_by_default", PyVal.b true), ("state_class", PyVal.s "measurement"), ("unit_of_measurement", PyVal.s "ug/m3"), ("value_template", PyVal.s "\x7b\x7b value_json.pm2_5_atm_b \x7d\x7d"), ("name", PyVal.s "2.5um ATM Mass B")]),
  ("pm10_0_atm_b",
    [("enabled_by_default", PyVal.b true), ("state_class", PyVal.s "measurement"), ("unit_of_measurement", PyVal.s "ug/m3"), ("value_template", PyVal.s "\x7b\x7b value_json.pm10_0_atm_b \x7d\x7d"), ("name", PyVal.s "10.0um ATM Mass B")]),
  ("p_0_3_um_b",
    [("enabled_by_default", PyVal.b true), ("state_class", PyVal.s "measurement"), ("unit_of_measurement", PyVal.s "um/dl"), ("value_template", PyVal.s "\x7b\x7b value_json.p_0_3_um_b \x7d\x7d"), ("name", PyVal.s "0.3um Particle Count B")]),
  ("p_0_5_um_b",
    [("enabled_by_default", PyVal.b true), ("state_class", PyVal.s "measurement"), ("unit_of_measurement", PyVal.s "um/dl"), ("value_template", PyVal.s "\x7b\x7b value_json.p_0_5_um_b \x7d\x7d"), ("name", PyVal.s "0.5um Particle Count B")]),
  ("p_1_0_um_b",
    [("enabled_by_default", PyVal.b true), ("state_class", PyVal.s "measurement"), ("unit_of_measurement", PyVal.s "um/dl"), ("value_template", PyVal.s "\x7b\x7b value_json.p_1_0_um_b \x7d\x7d"), ("name", PyVal.s "1.0um Particle Count B")]),
  ("p_2_5_um_b",
    [("enabled_by_default", PyVal.b true), ("state_class", PyVal.s "measurement"), ("unit_of_measurement", PyVal.s "um/dl"), ("value_template", PyVal.s "\x7b\x7b value_json.p_2_5_um_b \x7d\x7d"), ("name", PyVal.s "2.5um Particle Count B")]),
  ("p_5_0_um_b",
    [("enabled_by_default", PyVal.b true), ("state_class", PyVal.s "measurement"), ("unit_of_measurement", PyVal.s "um/dl"), ("value_template", PyVal.s "\x7b\x7b value_json.p_5_0_um_b \x7d\x7d"), ("name", PyVal.s "5.0um Particle Count B")]),
  ("p_10_0_um_b",
    [("enabled_by_default", PyVal.b true), ("state_class", PyVal.s "measurement"), ("unit_of_measurement", PyVal.s "um/dl"), ("value_template", PyVal.s "\x7b\x7b value_json.p_10_0_um_b \x7d\x7d"), ("name", PyVal.s "10.0um Particle Count B")]),
  ("p25aqic",
    [("enabled_by_default", PyVal.b false), ("state_class", PyVal.s "measurement"), ("value_template", PyVal.s "\x7b\x7b value_json.p25aqic \x7d\x7d"), ("name", PyVal.s "PM2.5 AQI Color A")]),
  ("pm2.5_aqi",
    [("enabled_by_default", PyVal.b true), ("state_class", PyVal.s "measurement"), ("value_template", PyVal.s "\x7b\x7b value_json.pm2.5_aqi \x7d\x7d"), ("name", PyVal.s "PM2.5 AQI A")]),
  ("pm1_0_cf_1",
    [("enabled_by_default", PyVal.b true), ("state_class", PyVal.s "measurement"), ("unit_of_measurement", PyVal.s "ug/m3"), ("value_template", PyVal.s "\x7b\x7b value_json.pm1_0_cf_1 \x7d\x7d"), ("name", PyVal.s "1.0um CF=1 Mass A")]),
  ("pm2_5_cf_1",
    [("enabled_by_default", PyVal.b true), ("state_class", PyVal.s "measurement"), ("unit_of_measurement", PyVal.s "ug/m3"), ("value_template", PyVal.s "\x7b\x7b value_json.pm2_5_cf_1 \x7d\x7d"), ("name", PyVal.s "2.5um CF=1 Mass A")]),
  ("pm10_0_cf_1",
    [("enabled_by_default", PyVal.b true), ("state_class", PyVal.s "measurement"), ("unit_of_measurement", PyVal.s "ug/m3"), ("value_template", PyVal.s "\x7b\x7b value_json.pm10_0_cf_1 \x7d\x7d"), ("name", PyVal.s "10.0um CF=1 Mass A")]),
  ("pm1_0_atm",
    [("enabled_by_default", PyVal.b true), ("state_class", PyVal.s "measurement"), ("unit_of_measurement", PyVal.s "ug/m3"), ("value_template", PyVal.s "\x7b\x7b value_json.pm1_0_atm \x7d\x7d"), ("name", PyVal.s "1.0um ATM Mass A")]),
  ("pm2_5_atm",
    [("enabled_by_default", PyVal.b true), ("state_class", PyVal.s "measurement"), ("unit_of_measurement", PyVal.s "ug/m3"), ("value_template", PyVal.s "\x7b\x7b value_json.pm2_5_atm \x7d\x7d"), ("name", PyVal.s "2.5um ATM Mass A")]),
  ("pm10_0_atm",
    [("enabled_by_default", PyVal.b true), ("state_class", PyVal.s "measurement"), ("unit_of_measurement", PyVal.s "ug/m3"), ("value_template", PyVal.s "\x7b\x7b value_json.pm10_0_atm \x7d\x7d"), ("name", PyVal.s "10.0um ATM Mass A")]),
  ("p_0_3_um",
    [("enabled_by_default", PyVal.b true), ("state_class", PyVal.s "measurement"), ("unit_of_measurement", PyVal.s "um/dl"), ("value_template", PyVal.s "\x7b\x7b value_json.p_0_3_um \x7d\x7d"), ("name", PyVal.s "0.3um Particle Count A")]),
  ("p_0_5_um",
    [("enabled_by_default", PyVal.b true), ("state_class", PyVal.s "measurement"), ("unit_of_measurement", PyVal.s "um/dl"), ("value_template", PyVal.s "\x7b\x7b value_json.p_0_5_um \x7d\x7d"), ("name", PyVal.s "0.5um Particle Count A")]),
  ("p_1_0_um",
    [("enabled_by_default", PyVal.b true), ("state_class", PyVal.s "measurement"), ("unit_of_measurement", PyVal.s "um/dl"), ("value_template", PyVal.s "\x7b\x7b value_json.p_1_0_um \x7d\x7d"), ("name", PyVal.s "1.0um Particle Count A")]),
  ("p_2_5_um",
    [("enabled_by_default", PyVal.b true), ("state_class", PyVal.s "measurement"), ("unit_of_measurement", PyVal.s "um/dl"), ("value_template", PyVal.s "\x7b\x7b value_json.p_2_5_um \x7d\x7d"), ("name", PyVal.s "2.5um Particle Count A")]),
  ("p_5_0_um",
    [("enabled_by_default", PyVal.b true), ("state_class", PyVal.s "measurement"), ("unit_of_measurement", PyVal.s "um/dl"), ("value_template", PyVal.s "\x7b\x7b value_json.p_5_0_um \x7d\x7d"), ("name", PyVal.s "5.0um Particle Count A")]),
  ("p_10_0_um",
    [("enabled_by_default", PyVal.b true), ("state_class", PyVal.s "measurement"), ("unit_of_measurement", PyVal.s "um/dl"), ("value_template", PyVal.s "\x7b\x7b value_json.p_10_0_um \x7d\x7d"), ("name", PyVal.s "10.0um Particle Count A")]),
  ("Geo",
    [("enabled_by_default", PyVal.b false), ("state_class", PyVal.s "measurement"), ("value_template", PyVal.s "PurpleAir-\x7b\x7b value_json.Geo \x7d\x7d"), ("name", PyVal.s "Name of the PurpleAir WiFi network for device setup")]),
  ("Mem",
    [("enabled_by_default", PyVal.b false), ("state_class", PyVal.s "measurement"), ("value_template", PyVal.s "\x7b\x7b value_json.Mem \x7d\x7d"), ("name", PyVal.s "Free Heap Memory")]),
  ("memfrag",
    [("enabled_by_default", PyVal.b false), ("state_class", PyVal.s "measurement"), ("value_template", PyVal.s "\x7b\x7b value_json.memfrag \x7d\x7d"), ("name", PyVal.s "Fragmentation of Heap Memory")]),
  ("memfb",
    [("enabled_by_default", PyVal.b false), ("state_class", PyVal.s "measurement"), ("value_template", PyVal.s "\x7b\x7b value_json.memfb \x7d\x7d"), ("name", PyVal.s "Max Free Block Size")]),
  ("memcs",
    [("enabled_by_default", PyVal.b false), ("state_class", PyVal.s "measurement"), ("value_template", PyVal.s "\x7b\x7b value_json.memcs \x7d\x7d"), ("name", PyVal.s "Free Stack Space")]),
  ("loggingrate",
    [("enabled_by_default", PyVal.b false), ("state_class", PyVal.s "measurement"), ("value_template", PyVal.s "\x7b\x7b value_json.loggingrate \x7d\x7d"), ("name", PyVal.s "Logging Rate")]),
  ("uptime",
    [("enabled_by_default", PyVal.b false), ("state_class", PyVal.s "measurement"), ("value_template", PyVal.s "\x7b\x7b value_json.uptime \x7d\x7d"), ("name", PyVal.s "Uptime")]),
  ("rssi",
    [("enabled_by_default", PyVal.b false), ("state_class", PyVal.s "measurement"), ("value_template", PyVal.s "\x7b\x7b value_json.rssi \x7d\x7d"), ("name", PyVal.s "WiFi Signal Strength")]),
  ("hardwareversion",
    [("enabled_by_default", PyVal.b false), ("state_class", PyVal.s "measurement"), ("value_template", PyVal.s "\x7b\x7b value_json.hardwareversion \x7d\x7d"), ("name", PyVal.s "Hardware Version")]),
  ("hardwarediscovered",
    [("enabled_by_default", PyVal.b false), ("state_class", PyVal.s "measurement"), ("value_template", PyVal.s "\x7b\x7b value_json.hardwarediscovered \x7d\x7d"), ("name", PyVal.s "Hardware Discovered")]),
  ("status_0",
    [("enabled_by_default", PyVal.b false), ("state_class", PyVal.s "measurement"), ("value_template", PyVal.s "\x7b\x7b value_json.status_0 \x7d\x7d"), ("name", PyVal.s "NTP time sync")]),
  ("status_1",
    [("enabled_by_default", PyVal.b false), ("state_class", PyVal.s "measurement"), ("value_template", PyVal.s "\x7b\x7b value_json.status_1 \x7d\x7d"), ("name", PyVal.s "Location lookup")]),
  ("status_2",
    [("enabled_by_default", PyVal.b false), ("state_class", PyVal.s "measurement"), ("value_template", PyVal.s "\x7b\x7b value_json.status_2 \x7d\x7d"), ("name", PyVal.s "Update check")]),
  ("status_3",
    [("enabled_by_default", PyVal.b false), ("state_class", PyVal.s "measurement"), ("value_template", PyVal.s "\x7b\x7b value_json.status_3 \x7d\x7d"), ("name", PyVal.s "Connection to PurpleAir servers")]),
  ("status_6",
    [("enabled_by_default", PyVal.b false), ("state_class", PyVal.s "measurement"), ("value_template", PyVal.s "\x7b\x7b value_json.status_6 \x7d\x7d"), ("name", PyVal.s "Data Processor #1 Status")]),
  ("ssid",
    [("enabled_by_default", PyVal.b false), ("state_class", PyVal.s "measurement"), ("value_template", PyVal.s "\x7b\x7b value_json.ssid \x7d\x7d"), ("name", PyVal.s "WiFi SSID")])
]

/-- The store in which the table's template dicts live at process start:
the template of the `i`-th table entry is the dict object at address
`i`. -/
def initStore : Store := ⟨purple_air_sensors.map Prod.snd⟩

/-- The address of `key`'s template dict (the table-entry index);
meaningful only when `key` is in the table. -/
def addr_of_key (key : String) : Nat :=
  (purple_air_sensors.findIdx? (fun q => q.1 = key)).getD 0

/-- Holds `true` exactly when Python `key in PurpleAirReceiver.purple_air_sensors`
is true. -/
def table_has_key (key : String) : Bool :=
  (purple_air_sensors.findIdx? (fun q => q.1 = key)).isSome

/-- The `device` block built for one discovery record (the dict literal
assigned to `sensor["device"]`, field order as written in the source;
`dict.get` of an absent key is Python `None`). -/
def discovery_device_block (data : PyDict) (sid : String) : PyVal :=
  .d [("hw_version", (pyDictGet data "hardwareversion").getD .pynone),
      ("identifiers", .l [.s ("purpleair_" ++ sid)]),
      ("manufacturer", .s "PurpleAir"),
      ("model", .s "PurpleAir Sensor"),
      ("name", (pyDictGet data "Geo").getD .pynone),
      ("sw_version", (pyDictGet data "version").getD .pynone)]

/-- The value of the copied-and-extended `sensor` dict at the end of one
iteration of the inner discovery loop, as a pure function of the
template value `tmpl` it was copied from: the source's six item
assignments (`availability`, `payload_available`, `payload_not_available`,
`device`, `unique_id`, `state_topic`), in order. -/
def build_discovery_sensor (env : PAEnv) (data : PyDict) (sid key : String)
    (tmpl : PyDict) : PyDict :=
  pyDictSet (pyDictSet (pyDictSet (pyDictSet (pyDictSet (pyDictSet tmpl
    "availability" (.d [("topic", .s env.status_topic)]))
    "payload_available" (.s "online"))
    "payload_not_available" (.s "offline"))
    "device" (discovery_device_block data sid))
    "unique_id" (.s ("purpleair_" ++ sid ++ "_" ++ key)))
    "state_topic" (.s (format_sensor_topic env.sensor_topic_root sid))

/-- The discovery topic f-string:
`f"{self.hass_config.discovery_topic}/sensor/purpleair2mqtt_{sensor_id}/{key}/config"`. -/
def discovery_topic_for (env : PAEnv) (sid key : String) : String :=
  env.discovery_topic ++ "/sensor/purpleair2mqtt_" ++ sid ++ "/" ++ key ++ "/config"

/-- The publish made for one in-table key of one device response. -/
def discovery_publish (env : PAEnv) (data : PyDict) (sid key : String)
    (tmpl : PyDict) : PublishEvent :=
  { topic := discovery_topic_for env sid key
    payload := .jsonDump (build_discovery_sensor env data sid key tmpl)
    retain := true }

/-- One iteration of the inner `for key, _value in data.items():` loop
of `publish_discovery_for_devices`, for an in-table `key` whose template
object lives at `tmplAddr`, statement by statement on the store:
`sensor = self.purple_air_sensors[key].copy()` allocates a fresh dict
holding the template object's current value, the six item assignments
mutate that fresh dict, and the resulting dict is `json.dumps`-ed and
published retained. -/
def discovery_key_step (env : PAEnv) (data : PyDict) (sid key : String)
    (tmplAddr : Nat) (st : Store) : PublishEvent × Store :=
  let al := st.alloc (st.read tmplAddr)
  let addr := al.1
  let st₁ := al.2
  let st₂ := st₁.write addr (pyDictSet (st₁.read addr)
    "availability" (.d [("topic", .s env.status_topic)]))
  let st₃ := st₂.write addr (pyDictSet (st₂.read addr)
    "payload_available" (.s "online"))
  let st₄ := st₃.write addr (pyDictSet (st₃.read addr)
    "payload_not_available" (.s "offline"))
  let st₅ := st₄.write addr (pyDictSet (st₄.read addr)
    "device" (discovery_device_block data sid))
  let st₆ := st₅.write addr (pyDictSet (st₅.read addr)
    "unique_id" (.s ("purpleair_" ++ sid ++ "_" ++ key)))
  let st₇ := st₆.write addr (pyDictSet (st₆.read addr)
    "state_topic" (.s (format_sensor_topic env.sensor_topic_root sid)))
  ({ topic := discovery_topic_for env sid key
     payload := .jsonDump (st₇.read addr)
     retain := true }, st₇)

/-- Embeds the inner `for key, _value in data.items():` loop of
`publish_discovery_for_devices`: in-table keys run `discovery_key_step`
on the template object's address, out-of-table keys are skipped
(`Skipping unknown sensor key`). -/
def publish_discovery_for_device_data (env : PAEnv) (data : PyDict) (sid : String) :
    PyDict → Store → List PublishEvent × Store
  | [], st => ([], st)
  | (key, _value) :: rest, st =>
      match purple_air_sensors.findIdx? (fun q => q.1 = key) with
      | some tmplAddr =>
          let step := discovery_key_step env data sid key tmplAddr st
          let r := publish_discovery_for_device_data env data sid rest step.2
          (step.1 :: r.1, r.2)
      | none => publish_discovery_for_device_data env data sid rest st

/-- Embeds `PurpleAirReceiver.publish_discovery_for_devices`: per URL,
fetch (transport errors and non-200 are logged and `continue`d),
`response.json()` (raising `JSONDecodeError` on an unparsable body,
uncaught), `data.get('SensorId')` fed to `strip_seperators` (raising
`AttributeError` when absent or not a string, uncaught), then the inner
per-key loop.  Returns the publishes made, the final store, and the
propagating exception if one was raised. -/
def publish_discovery_for_devices (env : PAEnv) :
    List String → Store → List PublishEvent × Store × Option PyError
  | [], st => ([], st, none)
  | url :: rest, st =>
      match env.fetch url with
      | .transportError => publish_discovery_for_devices env rest st
      | .response status _text parsed =>
          if status = 200 then
            match parsed with
            | none => ([], st, some .jsonDecodeError)
            | some data =>
                match pyDictGet data "SensorId" with
                | some (.s rawSid) =>
                    let sid := strip_seperators rawSid
                    let r := publish_discovery_for_device_data env data sid data st
                    let r₂ := publish_discovery_for_devices env rest r.2
                    (r.1 ++ r₂.1, r₂.2.1, r₂.2.2)
                | _ => ([], st, some .attributeError)
          else publish_discovery_for_devices env rest st

/-! ## `purpleair_receiver.py`: the loop tick -/

/-- The mutable state of a `PurpleAirReceiver`; `__init__` sets
`self.hass_discovery_complete = False`. -/
structure PurpleAirState where
  hass_discovery_complete : Bool
deriving DecidableEq, Repr

/-- The state built by `PurpleAirReceiver.__init__`. -/
def PurpleAirReceiver_init : PurpleAirState := ⟨false⟩

/-- Everything one call of `process_mqtt_loop` did: the new receiver
state, the store after any template copies, the publishes, the
propagating exception (if any — in which case `ret` is `none`: the call
never returned), the return value handed to the orchestrator, and
whether `publish_discovery_for_devices` was entered. -/
structure TickOutcome where
  state : PurpleAirState
  store : Store
  events : List PublishEvent
  error : Option PyError
  ret : Option Int
  discoveryInvoked : Bool

/-- Embeds `PurpleAirReceiver.process_mqtt_loop`:
```
if self.hass_config.discovery_enabled and not self.hass_discovery_complete:
    self.hass_discovery_complete = True
    self.publish_discovery_for_devices(client)
self.retrieve_latest_data(client)
return self.config.refresh_interval_seconds
```
The flag is set before discovery runs; an exception from either call
propagates and skips the rest. -/
def process_mqtt_loop (env : PAEnv) (s : PurpleAirState) (st : Store) : TickOutcome :=
  if env.discovery_enabled && !s.hass_discovery_complete then
    let d := publish_discovery_for_devices env env.urls st
    match d.2.2 with
    | some e =>
        { state := ⟨true⟩, store := d.2.1, events := d.1, error := some e,
          ret := none, discoveryInvoked := true }
    | none =>
        let r := retrieve_latest_data env env.urls
        { state := ⟨true⟩, store := d.2.1, events := d.1 ++ r.1, error := r.2,
          ret := if r.2.isSome then none else some env.refresh_interval_seconds,
          discoveryInvoked := true }
  else
    let r := retrieve_latest_data env env.urls
    { state := s, store := st, events := r.1, error := r.2,
      ret := if r.2.isSome then none else some env.refresh_interval_seconds,
      discoveryInvoked := false }

/-- Runs `n` successive orchestrator ticks in one process lifetime, counting
how often `publish_discovery_for_devices` was entered; an uncaught
exception ends the lifetime (no further ticks run). -/
def run_ticks (env : PAEnv) : Nat → PurpleAirState → Store → Nat × PurpleAirState × Store
  | 0, s, st => (0, s, st)
  | n + 1, s, st =>
      let t := process_mqtt_loop env s st
      let c : Nat := if t.discoveryInvoked then 1 else 0
      if t.error.isSome then (c, t.state, t.store)
      else
        let r := run_ticks env n t.state t.store
        (c + r.1, r.2.1, r.2.2)

/-! ## Witness inputs

Concrete environments used to instantiate conditional theorems. -/

/-- A concrete environment with discovery disabled and one unreachable
device. -/
def envDisabled : PAEnv where
  fetch := fun _ => FetchResult.transportError
  urls := ["http://purpleair-1.local/json"]
  refresh_interval_seconds := 300
  discovery_enabled := false
  discovery_topic := "homeassistant"
  status_topic := "alerts/purpleair2mqtt"
  sensor_topic_root := "sensors/purpleair2mqtt"

/-- A concrete environment in which URL `"b"` answers HTTP 500 and every
other URL answers HTTP 200 with a well-formed body. -/
def envOneBad : PAEnv where
  fetch := fun u =>
    if u = "b" then FetchResult.response 500 "server error" none
    else FetchResult.response 200 "\x7b\x22SensorId\x22: \x22a:b\x22\x7d"
      (some [("SensorId", PyVal.s "a:b")])
  urls := ["a", "b", "c"]
  refresh_interval_seconds := 300
  discovery_enabled := false
  discovery_topic := "homeassistant"
  status_topic := "alerts/purpleair2mqtt"
  sensor_topic_root := "sensors/purpleair2mqtt"

/-- A concrete environment in which URL `"a"` fails at transport level
and URL `"u"` answers HTTP 200 with a body that is not valid JSON. -/
def envBadJson : PAEnv where
  fetch := fun u =>
    if u = "u" then FetchResult.response 200 "not json" none
    else FetchResult.transportError
  urls := ["a", "u", "b"]
  refresh_interval_seconds := 300
  discovery_enabled := false
  discovery_topic := "homeassistant"
  status_topic := "alerts/purpleair2mqtt"
  sensor_topic_root := "sensors/purpleair2mqtt"

/-- A concrete environment for discovery. -/
def envDiscovery : PAEnv where
  fetch := fun _ =>
    FetchResult.response 200 "\x7b...\x7d"
      (some [("SensorId", PyVal.s "84:f3"), ("current_temp_f", PyVal.s "70"),
             ("foo", PyVal.s "1")])
  urls := ["a"]
  refresh_interval_seconds := 60
  discovery_enabled := true
  discovery_topic := "homeassistant"
  status_topic := "alerts/purpleair2mqtt"
  sensor_topic_root := "sensors/purpleair2mqtt"

/-- A device response used to instantiate the discovery theorems. -/
def dataSample : PyDict :=
  [("SensorId", PyVal.s "84:f3"), ("current_temp_f", PyVal.s "70"),
   ("foo", PyVal.s "1")]

/-! ## Helper lemmas: the store -/

theorem Store.length_write (st : Store) (a : Nat) (d : PyDict) :
    (st.write a d).cells.length = st.cells.length := by
  simp [Store.write]

theorem Store.read_write_self (st : Store) (a : Nat) (d : PyDict)
    (h : a < st.cells.length) : (st.write a d).read a = d := by
  simp [Store.read, Store.write, List.getElem?_set_eq_of_lt d h]

theorem Store.read_write_ne (st : Store) (a b : Nat) (d : PyDict)
    (h : a ≠ b) : (st.write a d).read b = st.read b := by
  simp [Store.read, Store.write, List.getElem?_set_ne h]

theorem Store.length_alloc (st : Store) (d : PyDict) :
    (st.alloc d).2.cells.length = st.cells.length + 1 := by
  simp [Store.alloc]

theorem Store.read_alloc_self (st : Store) (d : PyDict) :
    (st.alloc d).2.read (st.alloc d).1 = d := by
  simp [Store.read, Store.alloc, List.getElem?_concat_length]

theorem Store.read_alloc_lt (st : Store) (d : PyDict) (a : Nat)
    (h : a < st.cells.length) : (st.alloc d).2.read a = st.read a := by
  simp [Store.read, Store.alloc, List.getElem?_append_left h]

/-! ## Helper lemmas: Python dicts -/

theorem pyDictGet_set_self (d : PyDict) (k : String) (v : PyVal) :
    pyDictGet (pyDictSet d k v) k = some v := by
  induction d with
  | nil => simp [pyDictGet, pyDictSet]
  | cons p rest ih =>
      obtain ⟨k₀, v₀⟩ := p
      by_cases h : k₀ = k
      · simp [pyDictSet, h, pyDictGet]
      · simpa [pyDictSet, h, pyDictGet] using ih

theorem pyDictGet_set_ne (d : PyDict) (k k' : String) (v : PyVal)
    (h : k ≠ k') : pyDictGet (pyDictSet d k v) k' = pyDictGet d k' := by
  induction d with
  | nil => simp [pyDictGet, pyDictSet, h]
  | cons p rest ih =>
      obtain ⟨k₀, v₀⟩ := p
      by_cases h₀ : k₀ = k
      · subst h₀; simp [pyDictSet, pyDictGet, h]
      · by_cases h₁ : k₀ = k'
        · simp [pyDictSet, h₀, pyDictGet, h₁, Ne.symm h]
        · simpa [pyDictSet, h₀, pyDictGet, h₁] using ih

/-! ## Claim C4 -/

theorem pyReplaceRemove_eq_filter (l : List Char) (c : Char) :
    pyReplaceRemove l c = l.filter (fun x => !(x == c)) := by
  induction l with
  | nil => rfl
  | cons x xs ih => by_cases h : x = c <;> simp [pyReplaceRemove, h, ih]

/-- C4: `strip_seperators` removes every `" "`, `","`, `":"`, `"-"` and
keeps all other characters of the input in their original order (it is
exactly the filter dropping those four characters); in particular
`"AB:12, 34-5"` becomes `"AB12345"`. -/
theorem strip_seperators_removes_separators (v : String) :
    (strip_seperators v).data =
      v.data.filter (fun c => !(c == ' ' || c == ',' || c == ':' || c == '-'))
    ∧ (∀ c ∈ (strip_seperators v).data,
        c ≠ ' ' ∧ c ≠ ',' ∧ c ≠ ':' ∧ c ≠ '-')
    ∧ strip_seperators "AB:12, 34-5" = "AB12345" := by
  have hdata : (strip_seperators v).data =
      v.data.filter (fun c => !(c == ' ' || c == ',' || c == ':' || c == '-')) := by
    show pyReplaceRemove (pyReplaceRemove (pyReplaceRemove
        (pyReplaceRemove v.data ' ') ',') ':') '-' = _
    simp only [pyReplaceRemove_eq_filter, List.filter_filter]
    refine List.filter_congr ?_
    intro x _
    cases hb₁ : (x == ' ') <;> cases hb₂ : (x == ',') <;>
      cases hb₃ : (x == ':') <;> cases hb₄ : (x == '-') <;>
      simp [hb₁, hb₂, hb₃, hb₄]
  refine ⟨hdata, ?_, by decide⟩
  intro c hc
  rw [hdata] at hc
  have hn := List.of_mem_filter hc
  simp at hn
  tauto

/-- Witness for C4's theorem at the spec's concrete example. -/
theorem strip_seperators_removes_separators_witness :
    strip_seperators "AB:12, 34-5" = "AB12345" :=
  (strip_seperators_removes_separators "AB:12, 34-5").2.2

/-! ## Claim C1 -/

/-- C1 counterexample: a processor returning the negative value `-3`
does not make the orchestrator sleep the default of 1 second — the
Python `or` keeps the truthy `-3`, so `time.sleep(-3)` is attempted. -/
theorem negative_return_not_defaulted :
    loop_sleep_until true (some (-3)) = -3 ∧
      loop_sleep_until true (some (-3)) ≠ 1 := by
  decide

/-- C1 (amended): a return `d > 0` makes the orchestrator sleep `d`;
a return of `0` or `None` falls back to the default of 1 second; a
negative return is passed to `time.sleep` unchanged instead of being
replaced by the default. -/
theorem loop_sleep_until_spec (d : Int) :
    (0 < d → loop_sleep_until true (some d) = d)
    ∧ loop_sleep_until true none = 1
    ∧ loop_sleep_until true (some 0) = 1
    ∧ (d < 0 → loop_sleep_until true (some d) = d) := by
  have hne : ∀ e : Int, e ≠ 0 → loop_sleep_until true (some e) = e := by
    intro e he
    simp [loop_sleep_until, pyOrInt, he]
  exact ⟨fun h => hne d (by omega), by decide, by decide,
    fun h => hne d (by omega)⟩

/-- Witness for C1's theorem at `d = 5` and `d = -3`. -/
theorem loop_sleep_until_spec_witness :
    ((0 : Int) < 5 ∧ loop_sleep_until true (some 5) = 5)
    ∧ ((-3 : Int) < 0 ∧ loop_sleep_until true (some (-3)) = -3) :=
  ⟨⟨by decide, (loop_sleep_until_spec 5).1 (by decide)⟩,
   ⟨by decide, (loop_sleep_until_spec (-3)).2.2.2 (by decide)⟩⟩

/-! ## Claim C3 -/

/-- C3: on interrupt, the orchestrator's non-sleep actions are, in this
exact order: publish retained `"offline"` status, stop the network
thread, disconnect, call the processor's `clean_up` — with `clean_up`
executed exactly once, after `disconnect`; this holds for every number
of completed loop iterations. -/
theorem shutdown_sequence_ordered (status_topic : String) (ticks : List (Option Int)) :
    (connect_and_loop_events status_topic ticks).filter (fun e => !e.isSleep) =
      [OrchestratorEvent.publish status_topic "offline" true,
       OrchestratorEvent.loop_stop,
       OrchestratorEvent.disconnect,
       OrchestratorEvent.clean_up]
    ∧ (connect_and_loop_events status_topic ticks).countP
        (fun e => e.isCleanUp) = 1 := by
  constructor
  · simp only [connect_and_loop_events, List.filter_append]
    have h : (ticks.map (fun r => OrchestratorEvent.sleep (loop_sleep_until true r))).filter
        (fun e => !e.isSleep) = [] := by
      rw [List.filter_eq_nil_iff]
      intro a ha
      obtain ⟨r, _, rfl⟩ := List.mem_map.mp ha
      simp [OrchestratorEvent.isSleep]
    rw [h]
    rfl
  · simp only [connect_and_loop_events, List.countP_append]
    have h : (ticks.map (fun r => OrchestratorEvent.sleep (loop_sleep_until true r))).countP
        (fun e => e.isCleanUp) = 0 := by
      rw [List.countP_eq_zero]
      intro a ha
      obtain ⟨r, _, rfl⟩ := List.mem_map.mp ha
      simp [OrchestratorEvent.isCleanUp]
    rw [h]
    rfl

/-! ## Claim C8 -/

/-- C8 counterexample: loading a configuration whose `mqtt:` section is
present but sets no keys leaves both the status topic and the
sensor-topic root as `None` — the invariant "status topic is defined
before connect" fails for this loadable configuration. -/
theorem mqtt_section_without_topics :
    (load_mqtt_config MqttConfiguration.init (some emptyMqttYaml)).status_topic = none
    ∧ (load_mqtt_config MqttConfiguration.init
        (some emptyMqttYaml)).sensor_topic_root = none := by
  decide

/-- C8 (amended): after loading, the status topic is defined iff the
YAML has no `mqtt:` section (the constructor defaults survive) or the
section supplies a non-empty `status_topic`; likewise for the
sensor-topic root, which moreover is never the empty string when
defined. -/
theorem status_topic_defined_iff (sec : Option MqttYaml) :
    ((load_mqtt_config MqttConfiguration.init sec).status_topic.isSome ↔
      (sec = none ∨ ∃ m s, sec = some m ∧ m.status_topic = some s ∧ s ≠ ""))
    ∧ ((load_mqtt_config MqttConfiguration.init sec).sensor_topic_root.isSome ↔
      (sec = none ∨ ∃ m s, sec = some m ∧ m.sensor_topic_root = some s ∧ s ≠ ""))
    ∧ (∀ r, (load_mqtt_config MqttConfiguration.init sec).sensor_topic_root = some r →
        r ≠ "") := by
  obtain _ | m := sec
  · refine ⟨by simp [load_mqtt_config, MqttConfiguration.init], by simp [load_mqtt_config, MqttConfiguration.init], ?_⟩
    intro r hr
    simp [load_mqtt_config, MqttConfiguration.init] at hr
    subst hr
    decide
  · refine ⟨?_, ?_, ?_⟩
    · cases hm : m.status_topic with
      | none => simp [load_mqtt_config, pyOrNoneStr, hm]
      | some s =>
          by_cases hs : s = "" <;> simp [load_mqtt_config, pyOrNoneStr, hm, hs]
    · cases hm : m.sensor_topic_root with
      | none => simp [load_mqtt_config, pyOrNoneStr, hm]
      | some s =>
          by_cases hs : s = "" <;> simp [load_mqtt_config, pyOrNoneStr, hm, hs]
    · intro r hr
      cases hm : m.sensor_topic_root with
      | none => simp [load_mqtt_config, pyOrNoneStr, hm] at hr
      | some s =>
          by_cases hs : s = ""
          · simp [load_mqtt_config, pyOrNoneStr, hm, hs] at hr
          · simp [load_mqtt_config, pyOrNoneStr, hm, hs] at hr
            subst hr
            exact hs

/-- Witness for C8's amended theorem: with no `mqtt:` section the
defaults survive, and the default sensor-topic root is non-empty. -/
theorem status_topic_defined_iff_witness :
    (load_mqtt_config MqttConfiguration.init none).status_topic.isSome
    ∧ "sensors/purpleair2mqtt" ≠ "" :=
  ⟨(status_topic_defined_iff none).1.mpr (Or.inl rfl),
   (status_topic_defined_iff none).2.2 "sensors/purpleair2mqtt" rfl⟩

/-! ## Claim C6 -/

/-- C6: a message on a topic whose `wants_json` is true and whose
payload decodes to text that is not valid JSON is dropped with a warning
and without raising; when `wants_json` is false the raw payload bytes
are dispatched undecoded; and each message is processed independently,
so a malformed message leaves the handling of every other message
unchanged. -/
theorem malformed_json_dropped (wants_json : String → Bool)
    (decodeUtf8 : List Nat → Option String) (jsonLoads : String → Option PyDict)
    (topic : String) (payload : List Nat) (m : String)
    (ms1 ms2 : List (String × List Nat)) :
    (wants_json topic = true → decodeUtf8 payload = some m → jsonLoads m = none →
      on_message true wants_json decodeUtf8 jsonLoads topic payload =
        OnMessageOutcome.dropped_warned)
    ∧ (wants_json topic = false →
      on_message true wants_json decodeUtf8 jsonLoads topic payload =
        OnMessageOutcome.dispatched topic (MsgData.raw payload))
    ∧ process_messages true wants_json decodeUtf8 jsonLoads
        (ms1 ++ (topic, payload) :: ms2) =
      process_messages true wants_json decodeUtf8 jsonLoads ms1 ++
        on_message true wants_json decodeUtf8 jsonLoads topic payload ::
          process_messages true wants_json decodeUtf8 jsonLoads ms2 := by
  refine ⟨fun hw hd hj => ?_, fun hw => ?_, ?_⟩
  · simp [on_message, hw, hd, hj]
  · simp [on_message, hw]
  · simp [process_messages]

/-- Witness for C6's theorem with concrete oracles: a payload decoding
to text the JSON parser rejects is dropped with a warning. -/
theorem malformed_json_dropped_witness :
    on_message true (fun _ => true) (fun _ => some "not json") (fun _ => none)
      "sensors/t" [110] = OnMessageOutcome.dropped_warned :=
  (malformed_json_dropped (fun _ => true) (fun _ => some "not json")
    (fun _ => none) "sensors/t" [110] "not json" [] []).1 rfl rfl rfl

/-! ## Claim C2 -/

theorem process_mqtt_loop_flag (env : PAEnv) (s : PurpleAirState) (st : Store) :
    (process_mqtt_loop env s st).state.hass_discovery_complete =
      (s.hass_discovery_complete || env.discovery_enabled) := by
  obtain ⟨f⟩ := s
  cases f <;> cases he : env.discovery_enabled <;>
    simp only [process_mqtt_loop, he, Bool.not_false, Bool.not_true, Bool.and_true,
      Bool.and_false, Bool.false_and, Bool.true_and, Bool.false_or, Bool.or_false,
      Bool.or_true, Bool.true_or, if_true, if_false, Bool.false_eq_true, ite_false,
      ite_true] <;>
    first
      | rfl
      | (cases (publish_discovery_for_devices env env.urls st).2.2 <;> rfl)

theorem process_mqtt_loop_invoked (env : PAEnv) (s : PurpleAirState) (st : Store) :
    (process_mqtt_loop env s st).discoveryInvoked =
      (env.discovery_enabled && !s.hass_discovery_complete) := by
  obtain ⟨f⟩ := s
  cases f <;> cases he : env.discovery_enabled <;>
    simp only [process_mqtt_loop, he, Bool.not_false, Bool.not_true, Bool.and_true,
      Bool.and_false, Bool.false_and, Bool.true_and, if_true, if_false,
      Bool.false_eq_true, ite_false, ite_true] <;>
    first
      | rfl
      | (cases (publish_discovery_for_devices env env.urls st).2.2 <;> rfl)

theorem run_ticks_flag_true (env : PAEnv) (n : Nat) (s : PurpleAirState) (st : Store)
    (hs : s.hass_discovery_complete = true) : (run_ticks env n s st).1 = 0 := by
  induction n generalizing s st with
  | zero => rfl
  | succ n ih =>
      have hinv : (process_mqtt_loop env s st).discoveryInvoked = false := by
        rw [process_mqtt_loop_invoked, hs]; simp
      have hflag : (process_mqtt_loop env s st).state.hass_discovery_complete = true := by
        rw [process_mqtt_loop_flag, hs]; simp
      by_cases he : (process_mqtt_loop env s st).error.isSome
      · simp [run_ticks, he, hinv]
      · simp [run_ticks, he, hinv, ih _ _ hflag]

theorem run_ticks_disabled (env : PAEnv) (he : env.discovery_enabled = false)
    (n : Nat) (s : PurpleAirState) (st : Store) : (run_ticks env n s st).1 = 0 := by
  induction n generalizing s st with
  | zero => rfl
  | succ n ih =>
      have hinv : (process_mqtt_loop env s st).discoveryInvoked = false := by
        rw [process_mqtt_loop_invoked, he]; simp
      by_cases herr : (process_mqtt_loop env s st).error.isSome
      · simp [run_ticks, herr, hinv]
      · simp [run_ticks, herr, hinv, ih]

/-- C2: over any number of loop ticks in one process lifetime starting
from the freshly constructed receiver, `publish_discovery_for_devices`
is entered at most once; it is never entered when discovery is disabled
in the Home Assistant configuration; and once
`hass_discovery_complete` is set, a further tick never clears it. -/
theorem discovery_at_most_once (env : PAEnv) (n : Nat) (st : Store) :
    (run_ticks env n PurpleAirReceiver_init st).1 ≤ 1
    ∧ (env.discovery_enabled = false →
        (run_ticks env n PurpleAirReceiver_init st).1 = 0)
    ∧ (∀ s st₂, s.hass_discovery_complete = true →
        (process_mqtt_loop env s st₂).state.hass_discovery_complete = true) := by
  refine ⟨?_, fun he => run_ticks_disabled env he n _ st,
    fun s st₂ hs => by rw [process_mqtt_loop_flag, hs]; simp⟩
  cases n with
  | zero => simp [run_ticks]
  | succ n =>
      cases he : env.discovery_enabled with
      | false => rw [run_ticks_disabled env he]; omega
      | true =>
          have hflag : (process_mqtt_loop env PurpleAirReceiver_init st).state.hass_discovery_complete = true := by
            rw [process_mqtt_loop_flag, he]; simp
          by_cases herr : (process_mqtt_loop env PurpleAirReceiver_init st).error.isSome
          · simp only [run_ticks, herr, if_true]
            split <;> omega
          · simp only [run_ticks, herr, if_false, Bool.false_eq_true, ite_false,
              run_ticks_flag_true env n _ _ hflag]
            split <;> omega

/-- Witness for C2's theorem: with discovery disabled, three ticks never
enter discovery, and a tick from a completed-discovery state keeps the
flag set. -/
theorem discovery_at_most_once_witness :
    (run_ticks envDisabled 3 PurpleAirReceiver_init initStore).1 = 0
    ∧ (process_mqtt_loop envDisabled ⟨true⟩ initStore).state.hass_discovery_complete = true :=
  ⟨(discovery_at_most_once envDisabled 3 initStore).2.1 rfl,
   (discovery_at_most_once envDisabled 3 initStore).2.2 ⟨true⟩ initStore rfl⟩

/-! ## Claim C5 -/

/-- C5: a target whose fetch fails at transport level or answers with a
non-200 status is skipped for the cycle, and the cycle's outcome —
publishes made for every other target and any propagated error — is
exactly as if that target were absent from the configured list. -/
theorem failed_target_skipped (env : PAEnv) (l1 : List String) (u : String)
    (l2 : List String) (h : (env.fetch u).skipped = true) :
    retrieve_latest_data env (l1 ++ u :: l2) = retrieve_latest_data env (l1 ++ l2) := by
  induction l1 with
  | nil =>
      simp only [List.nil_append]
      cases hf : env.fetch u with
      | transportError => simp [retrieve_latest_data, hf]
      | response status text parsed =>
          have hst : ¬status = 200 := by
            rw [hf] at h
            simpa [FetchResult.skipped] using h
          simp [retrieve_latest_data, hf, hst]
  | cons x xs ih =>
      simp only [List.cons_append]
      cases hx : env.fetch x with
      | transportError => simp [retrieve_latest_data, hx, ih]
      | response status text parsed =>
          by_cases hst : status = 200
          · cases hp : process_json_data env text parsed with
            | error e => simp [retrieve_latest_data, hx, hst, hp]
            | ok ev => simp [retrieve_latest_data, hx, hst, hp, ih]
          · simp [retrieve_latest_data, hx, hst, ih]

/-- Witness for C5's theorem: with URL `"b"` answering HTTP 500, the
cycle over `["a", "b", "c"]` equals the cycle over `["a", "c"]`. -/
theorem failed_target_skipped_witness :
    (envOneBad.fetch "b").skipped = true
    ∧ retrieve_latest_data envOneBad ["a", "b", "c"] =
        retrieve_latest_data envOneBad ["a", "c"] :=
  ⟨rfl, failed_target_skipped envOneBad ["a"] "b" ["c"] rfl⟩

/-! ## Claim C9 -/

theorem retrieve_skip_prefix (env : PAEnv) (l1 rest : List String)
    (h : ∀ x ∈ l1, (env.fetch x).skipped = true) :
    retrieve_latest_data env (l1 ++ rest) = retrieve_latest_data env rest := by
  induction l1 with
  | nil => rfl
  | cons x xs ih =>
      have hx := h x (List.mem_cons_self x xs)
      have hrest : ∀ y ∈ xs, (env.fetch y).skipped = true :=
        fun y hy => h y (List.mem_cons_of_mem _ hy)
      simp only [List.cons_append]
      cases hf : env.fetch x with
      | transportError => simp [retrieve_latest_data, hf, ih hrest]
      | response status text parsed =>
          have hst : ¬status = 200 := by
            rw [hf] at hx
            simpa [FetchResult.skipped] using hx
          simp [retrieve_latest_data, hf, hst, ih hrest]

/-- C9: when a target answers HTTP 200 with a body that is not valid
JSON, or with a JSON object lacking a `SensorId` field,
`process_json_data` raises an exception that nothing catches: with
discovery already complete (or disabled), `process_mqtt_loop` propagates
the exception instead of returning, no publish is made, and the targets
after the failing one are never polled (the outcome is the same for
every tail `l2`). -/
theorem invalid_body_aborts_cycle (env : PAEnv) (s : PurpleAirState) (st : Store)
    (l1 l2 : List String) (u text : String) (parsed : Option PyDict)
    (hflag : env.discovery_enabled = false ∨ s.hass_discovery_complete = true)
    (hurls : env.urls = l1 ++ u :: l2)
    (hskip : ∀ x ∈ l1, (env.fetch x).skipped = true)
    (hu : env.fetch u = FetchResult.response 200 text parsed)
    (hbad : parsed = none ∨ ∃ d, parsed = some d ∧ pyDictGet d "SensorId" = none) :
    ((process_mqtt_loop env s st).error).isSome
    ∧ (process_mqtt_loop env s st).ret = none
    ∧ (process_mqtt_loop env s st).events = [] := by
  have hcond : (env.discovery_enabled && !s.hass_discovery_complete) = false := by
    rcases hflag with h | h <;> simp [h]
  have hretr : ∃ e, retrieve_latest_data env env.urls = ([], some e) := by
    rw [hurls, retrieve_skip_prefix env l1 _ hskip]
    rcases hbad with rfl | ⟨d, rfl, hd⟩
    · exact ⟨.jsonDecodeError, by simp [retrieve_latest_data, hu, process_json_data]⟩
    · exact ⟨.attributeError, by simp [retrieve_latest_data, hu, process_json_data, hd]⟩
  obtain ⟨e, he⟩ := hretr
  simp [process_mqtt_loop, hcond, he]

/-- Witness for C9's theorem: URL `"u"` answers 200 with an unparsable
body after a skipped target, and the tick ends in a propagating
exception with no publish. -/
theorem invalid_body_aborts_cycle_witness :
    ((process_mqtt_loop envBadJson ⟨true⟩ initStore).error).isSome
    ∧ (process_mqtt_loop envBadJson ⟨true⟩ initStore).ret = none
    ∧ (process_mqtt_loop envBadJson ⟨true⟩ initStore).events = [] :=
  invalid_body_aborts_cycle envBadJson ⟨true⟩ initStore ["a"] ["b"] "u" "not json"
    none (Or.inr rfl) rfl
    (by intro x hx; simp at hx; subst hx; rfl) rfl (Or.inl rfl)

/-! ## Claim C7 -/

theorem Store.alloc_fst (st : Store) (d : PyDict) :
    (st.alloc d).1 = st.cells.length := rfl

theorem Store.read_alloc_length (st : Store) (d : PyDict) :
    (st.alloc d).2.read st.cells.length = d :=
  Store.read_alloc_self st d

theorem addr_of_key_lt (key : String) (hk : table_has_key key = true) :
    addr_of_key key < purple_air_sensors.length := by
  unfold table_has_key at hk
  cases hidx : purple_air_sensors.findIdx? (fun q => q.1 = key) with
  | none => rw [hidx] at hk; simp at hk
  | some i =>
      obtain ⟨h, -⟩ := List.findIdx?_eq_some_iff_getElem.mp hidx
      simpa [addr_of_key, hidx] using h

theorem discovery_key_step_len (env : PAEnv) (data : PyDict) (sid key : String)
    (tmplAddr : Nat) (st : Store) :
    (discovery_key_step env data sid key tmplAddr st).2.cells.length =
      st.cells.length + 1 := by
  simp only [discovery_key_step, Store.length_write, Store.length_alloc]

theorem discovery_key_step_read (env : PAEnv) (data : PyDict) (sid key : String)
    (tmplAddr : Nat) (st : Store) (a : Nat) (ha : a < st.cells.length) :
    (discovery_key_step env data sid key tmplAddr st).2.read a = st.read a := by
  have hne : (st.alloc (st.read tmplAddr)).1 ≠ a := by
    rw [Store.alloc_fst]; omega
  simp only [discovery_key_step]
  rw [Store.read_write_ne _ _ _ _ hne, Store.read_write_ne _ _ _ _ hne,
      Store.read_write_ne _ _ _ _ hne, Store.read_write_ne _ _ _ _ hne,
      Store.read_write_ne _ _ _ _ hne, Store.read_write_ne _ _ _ _ hne,
      Store.read_alloc_lt st _ a ha]

theorem discovery_key_step_event (env : PAEnv) (data : PyDict) (sid key : String)
    (tmplAddr : Nat) (st : Store) :
    (discovery_key_step env data sid key tmplAddr st).1 =
      discovery_publish env data sid key (st.read tmplAddr) := by
  simp only [discovery_key_step, discovery_publish, build_discovery_sensor,
    Store.read_write_self, Store.read_alloc_self, Store.read_alloc_length,
    Store.length_write, Store.length_alloc, Store.alloc_fst, Nat.lt_succ_self]

theorem publish_discovery_for_device_data_spec (env : PAEnv) (data : PyDict)
    (sid : String) (d : List (String × PyVal)) :
    ∀ (st : Store), purple_air_sensors.length ≤ st.cells.length →
      (publish_discovery_for_device_data env data sid d st).1 =
        (d.filter (fun p => table_has_key p.1)).map
          (fun p => discovery_publish env data sid p.1 (st.read (addr_of_key p.1)))
      ∧ st.cells.length ≤ (publish_discovery_for_device_data env data sid d st).2.cells.length
      ∧ (∀ a, a < st.cells.length →
          (publish_discovery_for_device_data env data sid d st).2.read a = st.read a) := by
  induction d with
  | nil => exact fun st _ => ⟨rfl, le_refl _, fun a _ => rfl⟩
  | cons p rest ih =>
      intro st hlen
      obtain ⟨key, value⟩ := p
      cases hidx : purple_air_sensors.findIdx? (fun q => q.1 = key) with
      | none =>
          have hk : table_has_key key = false := by simp [table_has_key, hidx]
          obtain ⟨h1, h2, h3⟩ := ih st hlen
          refine ⟨?_, ?_, ?_⟩
          · simp only [publish_discovery_for_device_data, hidx]
            rw [h1, List.filter_cons]
            simp [hk]
          · simpa only [publish_discovery_for_device_data, hidx] using h2
          · intro a ha
            simpa only [publish_discovery_for_device_data, hidx] using h3 a ha
      | some tmplAddr =>
          have hk : table_has_key key = true := by simp [table_has_key, hidx]
          have haddr : addr_of_key key = tmplAddr := by simp [addr_of_key, hidx]
          have hstep_len := discovery_key_step_len env data sid key tmplAddr st
          have hlen' : purple_air_sensors.length ≤
              (discovery_key_step env data sid key tmplAddr st).2.cells.length := by
            omega
          obtain ⟨h1, h2, h3⟩ := ih (discovery_key_step env data sid key tmplAddr st).2 hlen'
          refine ⟨?_, ?_, ?_⟩
          · simp only [publish_discovery_for_device_data, hidx]
            rw [discovery_key_step_event, h1, List.filter_cons]
            simp only [hk, if_true, List.map_cons]
            congr 1
            · rw [haddr]
            · refine List.map_congr_left ?_
              intro q hq
              have hkq : table_has_key q.1 = true := by
                simpa using (List.mem_filter.mp hq).2
              have hq_lt : addr_of_key q.1 < purple_air_sensors.length :=
                addr_of_key_lt _ hkq
              rw [discovery_key_step_read env data sid key tmplAddr st _ (by omega)]
          · simp only [publish_discovery_for_device_data, hidx]
            omega
          · intro a ha
            simp only [publish_discovery_for_device_data, hidx]
            rw [h3 a (by omega),
                discovery_key_step_read env data sid key tmplAddr st a ha]

/-- C7: from a fetched sensor JSON object, the inner discovery loop
publishes exactly one retained descriptor per key present both in the
response and in the static `purple_air_sensors` table — to topic
`{discoveryTopicRoot}/sensor/purpleair2mqtt_{sensorId}/{key}/config`,
with `unique_id` `purpleair_{sensorId}_{key}` and device identifier
`purpleair_{sensorId}` — and skips every key absent from the static
table without error. -/
theorem discovery_descriptors_per_key (env : PAEnv) (data : PyDict) (sid : String)
    (st : Store) (hlen : purple_air_sensors.length ≤ st.cells.length) :
    (publish_discovery_for_device_data env data sid data st).1 =
      (data.filter (fun p => table_has_key p.1)).map
        (fun p => discovery_publish env data sid p.1 (st.read (addr_of_key p.1)))
    ∧ (∀ ev ∈ (publish_discovery_for_device_data env data sid data st).1,
        ev.retain = true)
    ∧ (∀ key tmpl,
        (discovery_publish env data sid key tmpl).topic =
          env.discovery_topic ++ "/sensor/purpleair2mqtt_" ++ sid ++ "/" ++ key ++ "/config"
        ∧ pyDictGet (build_discovery_sensor env data sid key tmpl) "unique_id" =
            some (PyVal.s ("purpleair_" ++ sid ++ "_" ++ key))
        ∧ pyDictGet (build_discovery_sensor env data sid key tmpl) "device" =
            some (PyVal.d
              [("hw_version", (pyDictGet data "hardwareversion").getD PyVal.pynone),
               ("identifiers", PyVal.l [PyVal.s ("purpleair_" ++ sid)]),
               ("manufacturer", PyVal.s "PurpleAir"),
               ("model", PyVal.s "PurpleAir Sensor"),
               ("name", (pyDictGet data "Geo").getD PyVal.pynone),
               ("sw_version", (pyDictGet data "version").getD PyVal.pynone)])) := by
  obtain ⟨h1, -, -⟩ := publish_discovery_for_device_data_spec env data sid data st hlen
  refine ⟨h1, ?_, ?_⟩
  · intro ev hev
    rw [h1] at hev
    obtain ⟨q, -, rfl⟩ := List.mem_map.mp hev
    rfl
  · intro key tmpl
    refine ⟨rfl, ?_, ?_⟩
    · unfold build_discovery_sensor
      rw [pyDictGet_set_ne _ _ _ _ (by decide), pyDictGet_set_self]
    · unfold build_discovery_sensor
      rw [pyDictGet_set_ne _ _ _ _ (by decide), pyDictGet_set_ne _ _ _ _ (by decide),
          pyDictGet_set_self]
      rfl

/-- Witness for C7's theorem on a concrete response containing one
in-table key (`current_temp_f`) and one unknown key (`foo`). -/
theorem discovery_descriptors_per_key_witness :
    purple_air_sensors.length ≤ initStore.cells.length
    ∧ (publish_discovery_for_device_data envDiscovery dataSample "84f3" dataSample
        initStore).1 =
      (dataSample.filter (fun p => table_has_key p.1)).map
        (fun p => discovery_publish envDiscovery dataSample "84f3" p.1
          (initStore.read (addr_of_key p.1))) :=
  ⟨by decide,
   (discovery_descriptors_per_key envDiscovery dataSample "84f3" initStore (by decide)).1⟩

/-! ## Claim C10 -/

theorem publish_discovery_for_devices_spec (env : PAEnv) (urls : List String) :
    ∀ st : Store, purple_air_sensors.length ≤ st.cells.length →
      st.cells.length ≤ (publish_discovery_for_devices env urls st).2.1.cells.length
      ∧ (∀ a, a < st.cells.length →
          (publish_discovery_for_devices env urls st).2.1.read a = st.read a) := by
  induction urls with
  | nil => exact fun st _ => ⟨le_refl _, fun a _ => rfl⟩
  | cons url rest ih =>
      intro st hlen
      cases hf : env.fetch url with
      | transportError =>
          simpa only [publish_discovery_for_devices, hf] using ih st hlen
      | response status text parsed =>
          by_cases hst : status = 200
          · cases parsed with
            | none =>
                simp only [publish_discovery_for_devices, hf, hst]
                exact ⟨le_refl _, fun a _ => rfl⟩
            | some data =>
                cases hG : pyDictGet data "SensorId" with
                | none =>
                    simp only [publish_discovery_for_devices, hf, hst, hG]
                    exact ⟨le_refl _, fun a _ => rfl⟩
                | some v =>
                    cases v with
                    | s rawSid =>
                        obtain ⟨-, h2, h3⟩ :=
                          publish_discovery_for_device_data_spec env data
                            (strip_seperators rawSid) data st hlen
                        obtain ⟨h2', h3'⟩ :=
                          ih (publish_discovery_for_device_data env data
                            (strip_seperators rawSid) data st).2 (by omega)
                        simp only [publish_discovery_for_devices, hf, hst, hG,
                          eq_self_iff_true, if_true]
                        refine ⟨by omega, ?_⟩
                        intro a ha
                        rw [h3' a (by omega), h3 a ha]
                    | b v =>
                        simp only [publish_discovery_for_devices, hf, hst, hG]
                        exact ⟨le_refl _, fun a _ => rfl⟩
                    | l items =>
                        simp only [publish_discovery_for_devices, hf, hst, hG]
                        exact ⟨le_refl _, fun a _ => rfl⟩
                    | d fields =>
                        simp only [publish_discovery_for_devices, hf, hst, hG]
                        exact ⟨le_refl _, fun a _ => rfl⟩
                    | pynone =>
                        simp only [publish_discovery_for_devices, hf, hst, hG]
                        exact ⟨le_refl _, fun a _ => rfl⟩
          · simpa only [publish_discovery_for_devices, hf, if_neg hst] using ih st hlen

theorem publish_discovery_for_devices_events_congr (env : PAEnv) (urls : List String) :
    ∀ st st' : Store,
      purple_air_sensors.length ≤ st.cells.length →
      purple_air_sensors.length ≤ st'.cells.length →
      (∀ a, a < purple_air_sensors.length → st.read a = st'.read a) →
      (publish_discovery_for_devices env urls st).1 =
        (publish_discovery_for_devices env urls st').1 := by
  induction urls with
  | nil => intro _ _ _ _ _; rfl
  | cons url rest ih =>
      intro st st' hl hl' hr
      cases hf : env.fetch url with
      | transportError =>
          simp only [publish_discovery_for_devices, hf]
          exact ih st st' hl hl' hr
      | response status text parsed =>
          by_cases hst : status = 200
          · cases parsed with
            | none => simp only [publish_discovery_for_devices, hf, hst]; rfl
            | some data =>
                cases hG : pyDictGet data "SensorId" with
                | none => simp only [publish_discovery_for_devices, hf, hst, hG]; rfl
                | some v =>
                    cases v with
                    | s rawSid =>
                        obtain ⟨h1, h2, h3⟩ :=
                          publish_discovery_for_device_data_spec env data
                            (strip_seperators rawSid) data st hl
                        obtain ⟨h1', h2', h3'⟩ :=
                          publish_discovery_for_device_data_spec env data
                            (strip_seperators rawSid) data st' hl'
                        simp only [publish_discovery_for_devices, hf, hst, hG,
                          eq_self_iff_true, if_true]
                        congr 1
                        · rw [h1, h1']
                          refine List.map_congr_left ?_
                          intro q hq
                          have hkq : table_has_key q.1 = true := by
                            simpa using (List.mem_filter.mp hq).2
                          rw [hr _ (addr_of_key_lt _ hkq)]
                        · refine ih _ _ (by omega) (by omega) ?_
                          intro a ha
                          rw [h3 a (by omega), h3' a (by omega), hr a ha]
                    | b v => simp only [publish_discovery_for_devices, hf, hst, hG]; rfl
                    | l items => simp only [publish_discovery_for_devices, hf, hst, hG]; rfl
                    | d fields => simp only [publish_discovery_for_devices, hf, hst, hG]; rfl
                    | pynone => simp only [publish_discovery_for_devices, hf, hst, hG]; rfl
          · simp only [publish_discovery_for_devices, hf, if_neg hst]
            exact ih st st' hl hl' hr

/-- C10: `publish_discovery_for_devices` leaves every pre-existing dict
object — in particular every template of the static
`purple_air_sensors` table — unchanged, because each per-key template is
copied into a fresh object before the `availability`, `device`,
`unique_id` and `state_topic` fields are added; consequently a repeated
discovery run starts from identical templates and publishes identical
descriptors. -/
theorem discovery_leaves_table_unchanged (env : PAEnv) (urls : List String)
    (st : Store) (hlen : purple_air_sensors.length ≤ st.cells.length) :
    (∀ a, a < st.cells.length →
      (publish_discovery_for_devices env urls st).2.1.read a = st.read a)
    ∧ (publish_discovery_for_devices env urls
        ((publish_discovery_for_devices env urls st).2.1)).1 =
      (publish_discovery_for_devices env urls st).1 := by
  obtain ⟨h2, h3⟩ := publish_discovery_for_devices_spec env urls st hlen
  exact ⟨h3, publish_discovery_for_devices_events_congr env urls _ st (by omega) hlen
    (fun a ha => h3 a (by omega))⟩

/-- Witness for C10's theorem: after a discovery run over the initial
store, the first template object reads back unchanged, and a second run
publishes the same descriptors. -/
theorem discovery_leaves_table_unchanged_witness :
    purple_air_sensors.length ≤ initStore.cells.length
    ∧ (publish_discovery_for_devices envDiscovery ["a"] initStore).2.1.read 0 =
        initStore.read 0 :=
  ⟨by decide,
   (discovery_leaves_table_unchanged envDiscovery ["a"] initStore (by decide)).1 0
     (by decide)⟩

end PurpleAir2Mqtt
